import Mathlib

/-!
Verification development for the SmartLab Gateway Simulator (`main.py`).

The program is a JSON-RPC dispatcher over an in-memory registry of material
tests (`list_of_tests`), each test carrying a lifecycle status string
(`"RUN"`, `"PAUSE"`, `"END"`), plus file-backed persistence of the registry
(`config.json`).

Embedding conventions:
* Python dict payloads are modelled by the `Json` inductive, preserving key
  order of the source dicts.
* Python floats are modelled as rationals (`ℚ`).
* `int(time.time())` is an explicit `now : Int` parameter; the one call to
  `random.uniform(50, 100)` is an explicit `peak : ℚ` parameter.
* The mutable globals are a `State`: the in-memory `tests` list and the
  `stored` list last written to `config.json`.
* `params.get(k)` on the untyped parameter bag is an `Option` field.
-/

namespace Compression

/-- JSON-like values, used for the `result` and `error` payloads produced by
`jsonrpc_response`. Object fields keep the insertion order of the Python
dict literals in the source. -/
inductive Json where
  | null : Json
  | bool : Bool → Json
  | str : String → Json
  | int : Int → Json
  | rat : ℚ → Json
  | arr : List Json → Json
  | obj : List (String × Json) → Json

/-- Field lookup in a JSON object; `none` on non-objects or missing keys. -/
def Json.lookup : Json → String → Option Json
  | .obj kvs, k => kvs.lookup k
  | _, _ => none

/-- Outcome of one call to `jsonrpc_response`: a `result` payload or an
`error` payload (the `jsonrpc`/`id` envelope fields are pass-through and
not modelled). -/
inductive RpcOutcome where
  | result : Json → RpcOutcome
  | error : Json → RpcOutcome

/-- One `(delta_t, value)` sample pair of a channel acquisition record. -/
structure DataPoint where
  delta_t : ℚ
  value : ℚ
deriving DecidableEq

/-- A channel acquisition record, as stored in
`test["list_of_channel_acquired_data"]`. -/
structure ChannelAcquiredData where
  stage_name : String
  sub_stage_index : Int
  channel_type : String
  channel_index : Int
  list_of_data_points : List DataPoint
deriving DecidableEq

/-- A test record, with the keys the handlers read and write.
`stop_mode_id = none` models both an absent key and a JSON `null`
(`test.get("stop_mode_id")` returns `None` in both cases). -/
structure Test where
  test_number : Int
  status : String
  test_description : String
  specimen_code : String
  specimen_description : String
  sample_reception_epoch_time : Int
  customer_id : Int
  test_status_code : String
  stop_mode_id : Option Int
  list_of_channel_acquired_data : List ChannelAcquiredData
deriving DecidableEq

/-- The fields of `config.json` that the dispatcher reads (all present in the
configuration the program is run with; `list_of_licenses` is flattened to its
`code` fields, the only part the code reads). -/
structure Config where
  api_key : String
  deviceId : String
  deviceName : String
  test_duration_seconds : Int
  list_of_license_codes : List String

/-- The untyped JSON-RPC parameter bag, restricted to the keys the handlers
call `params.get` on. -/
structure Params where
  api_key : Option String := none
  device_id : Option String := none
  test_number : Option Int := none
  x : Option ℚ := none
  specimen_code : Option String := none
  test_description : Option String := none
  specimen_description : Option String := none
  customer_id : Option Int := none

/-- Mutable program state: the in-memory `list_of_tests` and the test list
last persisted to `config.json` by `json.dump`. -/
structure State where
  tests : List Test
  stored : List Test
deriving DecidableEq

/-- Python `f"{v}"` for an optional string (`None` prints as `"None"`). -/
def pyStr : Option String → String
  | none => "None"
  | some s => s

/-- Python `f"{v}"` for an optional integer (`None` prints as `"None"`). -/
def pyIntStr : Option Int → String
  | none => "None"
  | some n => toString n

/-- JSON encoding of an optional integer (`None` serialises to `null`). -/
def jsonOfOptInt : Option Int → Json
  | none => .null
  | some n => .int n

/-- An error payload `{"code": code, "message": msg}`. -/
def errObj (code : Int) (msg : String) : Json :=
  .obj [("code", .int code), ("message", .str msg)]

/-- The error payloads of `continueTest`/`stopTest` use the key `"status"`
instead of `"message"`: `{"code": code, "status": s}`. -/
def errStatusObj (code : Int) (s : String) : Json :=
  .obj [("code", .int code), ("status", .str s)]

/-- The `f"Device ID {params.get('device_id')} not found"` error. -/
def deviceNotFound (params : Params) : Json :=
  errObj (-1) ("Device ID " ++ pyStr params.device_id ++ " not found")

/-- The `f"Test number {test_number} not found"` error. -/
def testNotFound (n : Option Int) : Json :=
  errObj (-1) ("Test number " ++ pyIntStr n ++ " not found")

/-- Stand-in for Python `math.sqrt`. Its value is returned inside one result
payload and nothing verified here depends on it, so the floating-point square
root is modelled by a rational approximation. -/
def sqrtQ (q : ℚ) : ℚ := (Nat.sqrt q.num.toNat : ℚ) / (Nat.sqrt q.den : ℚ)

/-- `next((t for t in list_of_tests if t["test_number"] == test_number), None)`,
returning the index of the first match together with the record (the Python
code mutates the found dict in place, which aliases the list entry, so the
index is needed to model the mutation). -/
def lookupTestAux (n : Int) : List Test → Option (Nat × Test)
  | [] => none
  | t :: ts =>
    if t.test_number = n then some (0, t)
    else (lookupTestAux n ts).map (fun p => (p.1 + 1, p.2))

/-- Test lookup with an optional `test_number` parameter: a missing parameter
(`None`) compares unequal to every stored integer, so nothing is found. -/
def lookupTest (tests : List Test) (n : Option Int) : Option (Nat × Test) :=
  match n with
  | none => none
  | some m => lookupTestAux m tests

/-- The synthetic waveform of `cloneAndStartTest`:
`for x in range(0, 100_00, 5): x = x/100; y = x if x < maxNewton else -x + (maxNewton * 2)`.
`range(0, 10000, 5)` has 2000 elements `5*i`, `i < 2000`. -/
def results_data (maxNewton : ℚ) : List DataPoint :=
  (List.range 2000).map (fun (i : ℕ) =>
    let x : ℚ := (5 * (i : ℚ)) / 100
    { delta_t := x, value := if x < maxNewton then x else -x + maxNewton * 2 })

/-- The `new_test` dict built by `cloneAndStartTest` (no `stop_mode_id` key). -/
def mkCloneTest (params : Params) (now : Int) (peak : ℚ) (new_test_number : Int) : Test :=
  { test_number := new_test_number
    status := "OK"
    test_description := params.test_description.getD "Cloned Test"
    specimen_code := params.specimen_code.getD "001"
    specimen_description := params.specimen_description.getD "Cloned Specimen"
    sample_reception_epoch_time := now
    customer_id := params.customer_id.getD 1
    test_status_code := "RUN"
    stop_mode_id := none
    list_of_channel_acquired_data := [{
      stage_name := "COMPRESSION_STAGE"
      sub_stage_index := 1
      channel_type := "Analog"
      channel_index := 1
      list_of_data_points := results_data peak }] }

/-- The success payload of `getTestInfoAndStatus`, read from the (possibly
just auto-completed) test record. -/
def testInfoJson (t : Test) : Json :=
  .obj [("status", .str "OK"),
    ("test_description", .str t.test_description),
    ("specimen_code", .str t.specimen_code),
    ("specimen_description", .str t.specimen_description),
    ("sample_reception_epoch_time", .int t.sample_reception_epoch_time),
    ("customer_id", .int t.customer_id),
    ("test_status_code", .str t.test_status_code)]

/-- JSON encoding of one `(delta_t, value)` sample pair. -/
def dataPointJson (p : DataPoint) : Json :=
  .obj [("delta_t", .rat p.delta_t), ("value", .rat p.value)]

/-- JSON encoding of a channel acquisition record. -/
def channelJson (c : ChannelAcquiredData) : Json :=
  .obj [("stage_name", .str c.stage_name),
    ("sub_stage_index", .int c.sub_stage_index),
    ("channel_type", .str c.channel_type),
    ("channel_index", .int c.channel_index),
    ("list_of_data_points", .arr (c.list_of_data_points.map dataPointJson))]

/-- The success payload of `getTestAcquiredDataAndResults`. -/
def acquiredDataJson (t : Test) : Json :=
  .obj [("status", .str "OK"),
    ("list_of_channel_acquired_data",
      .arr (t.list_of_channel_acquired_data.map channelJson)),
    ("stop_mode_id", jsonOfOptInt t.stop_mode_id)]

/-- The `sqrt` branch: fails on a missing or negative argument. -/
def handle_sqrt (params : Params) (st : State) : RpcOutcome × State :=
  match params.x with
  | none =>
    (.error (errObj (-1) "Error in doSqrt: sqrt is only applicable to non-negative values"), st)
  | some x =>
    if x < 0 then
      (.error (errObj (-1) "Error in doSqrt: sqrt is only applicable to non-negative values"), st)
    else
      (.result (.obj [("status", .str "OK"), ("y", .rat (sqrtQ x))]), st)

/-- The `getListOfAllMachines` branch. -/
def handle_getListOfAllMachines (cfg : Config) (st : State) : RpcOutcome × State :=
  (.result (.obj [("status", .str "OK"),
    ("list_of_all_device_ids",
      .arr [.str cfg.deviceId, .str "756200G-0E-0028000C", .str "28XYPP-05-00470034"])]), st)

/-- The `getMachineIdentity` branch. -/
def handle_getMachineIdentity (cfg : Config) (params : Params) (st : State) :
    RpcOutcome × State :=
  if params.device_id ≠ some cfg.deviceId then
    (.error (deviceNotFound params), st)
  else
    (.result (.obj [("status", .str "OK"),
      ("machine_name", .str cfg.deviceName),
      ("machine_type_id", .int 256),
      ("list_of_license_codes", .arr (cfg.list_of_license_codes.map .str))]), st)

/-- The `getMachineStatus` branch. -/
def handle_getMachineStatus (cfg : Config) (params : Params) (st : State) :
    RpcOutcome × State :=
  if params.device_id ≠ some cfg.deviceId then
    (.error (deviceNotFound params), st)
  else
    (.result (.obj [("status", .str "OK"), ("machine_status_id", .int 2)]), st)

/-- The `getListOfAllTests` branch. -/
def handle_getListOfAllTests (cfg : Config) (params : Params) (st : State) :
    RpcOutcome × State :=
  if params.device_id ≠ some cfg.deviceId then
    (.error (deviceNotFound params), st)
  else
    (.result (.obj [("status", .str "OK"),
      ("list_of_all_test_numbers", .arr (st.tests.map (fun t => .int t.test_number)))]), st)

/-- The `getListOfAllTestsBySpecimenCode` branch. -/
def handle_getListOfAllTestsBySpecimenCode (cfg : Config) (params : Params) (st : State) :
    RpcOutcome × State :=
  if params.device_id ≠ some cfg.deviceId then
    (.error (deviceNotFound params), st)
  else if st.tests.filter (fun t => some t.specimen_code == params.specimen_code) = [] then
    (.error (errObj (-1) ("No tests found for specimen code " ++ pyStr params.specimen_code)), st)
  else
    (.result (.obj [("status", .str "OK"), ("message", .str "Method not implemented yet")]), st)

/-- The `getTestInfoAndStatus` branch: device guard, lookup, time-based
auto-completion, persistence, then the descriptive payload read from the
(possibly just auto-completed) record. -/
def handle_getTestInfoAndStatus (cfg : Config) (params : Params) (now : Int) (st : State) :
    RpcOutcome × State :=
  if params.device_id ≠ some cfg.deviceId then
    (.error (deviceNotFound params), st)
  else
    match lookupTest st.tests params.test_number with
    | none => (.error (testNotFound params.test_number), st)
    | some (i, t) =>
      let t' := if t.test_status_code = "RUN" ∧
          now - t.sample_reception_epoch_time ≥ cfg.test_duration_seconds then
        { t with test_status_code := "END", stop_mode_id := some 2 }
      else t
      let tests' := st.tests.set i t'
      (.result (testInfoJson t'), { tests := tests', stored := tests' })

/-- The `getCustomer` branch (static payload). -/
def handle_getCustomer (st : State) : RpcOutcome × State :=
  (.result (.obj [("status", .str "OK"), ("description", .str "PNN Scavi SRL"),
    ("address", .str "123 Test Street"), ("phone1", .str "000111222"),
    ("phone2", .null), ("email", .str "test@example.com"),
    ("contact1", .str "John Doe"), ("contact2", .null), ("annotation", .null)]), st)

/-- The `getListOfAllCustomers` branch (static payload). -/
def handle_getListOfAllCustomers (st : State) : RpcOutcome × State :=
  (.result (.obj [("status", .str "OK"),
    ("list_of_all_customers", .arr [.int 1, .int 2, .int 3, .int 4])]), st)

/-- The `getTestAcquisitionSettings` branch. -/
def handle_getTestAcquisitionSettings (cfg : Config) (params : Params) (st : State) :
    RpcOutcome × State :=
  if params.device_id ≠ some cfg.deviceId then
    (.error (deviceNotFound params), st)
  else
    match lookupTest st.tests params.test_number with
    | none => (.error (testNotFound params.test_number), st)
    | some _ =>
      (.result (.obj [("status", .str "OK"), ("profile_id", .int 1),
        ("list_of_stages", .str "Not implemented yet")]), st)

/-- The `getTestAcquiredDataAndResults` branch. The device-identity guard is
absent from this branch in the source: `params.device_id` is never read. -/
def handle_getTestAcquiredDataAndResults (cfg : Config) (params : Params) (now : Int)
    (st : State) : RpcOutcome × State :=
  match lookupTest st.tests params.test_number with
  | none => (.error (testNotFound params.test_number), st)
  | some (i, t) =>
    let t' := if t.test_status_code = "RUN" ∧
        now - t.sample_reception_epoch_time ≥ cfg.test_duration_seconds then
      { t with test_status_code := "END", stop_mode_id := some 2 }
    else t
    let tests' := st.tests.set i t'
    (.result (acquiredDataJson t'), { tests := tests', stored := tests' })

/-- The `cloneAndStartTest` branch: device guard, source lookup, last-test
guard, then append of the synthetic clone and persistence. -/
def handle_cloneAndStartTest (cfg : Config) (params : Params) (now : Int) (peak : ℚ)
    (st : State) : RpcOutcome × State :=
  if params.device_id ≠ some cfg.deviceId then
    (.error (deviceNotFound params), st)
  else
    match lookupTest st.tests params.test_number with
    | none => (.error (testNotFound params.test_number), st)
    | some _ =>
      -- `list_of_tests[new_test_number - 1]` with `new_test_number = len(...)`
      -- is the last element; on an empty list Python raises IndexError,
      -- caught by the outer handler as a -32000 error (unreachable here,
      -- since the lookup above already succeeded).
      match st.tests.getLast? with
      | none => (.error (errObj (-32000) "list index out of range"), st)
      | some last =>
        if last.test_status_code = "RUN" then
          (.error (errObj (-1) "Cannot clone a running test"), st)
        else
          let new_test_number : Int := st.tests.length
          let new_test := mkCloneTest params now peak new_test_number
          let tests' := st.tests ++ [new_test]
          (.result (.obj [("status", .str "OK"), ("new_test_number", .int new_test_number)]),
            { tests := tests', stored := tests' })

/-- The `continueTest` branch. -/
def handle_continueTest (cfg : Config) (params : Params) (now : Int) (st : State) :
    RpcOutcome × State :=
  if params.device_id ≠ some cfg.deviceId then
    (.error (deviceNotFound params), st)
  else
    match lookupTest st.tests params.test_number with
    | none => (.error (testNotFound params.test_number), st)
    | some (i, t) =>
      if t.test_status_code ≠ "PAUSE" then
        (.error (errStatusObj (-1) "TEST NOT IN PAUSE"), st)
      else
        let t' := { t with test_status_code := "RUN", sample_reception_epoch_time := now }
        let tests' := st.tests.set i t'
        (.result (.obj [("status", .str "OK")]), { tests := tests', stored := tests' })

/-- The `stopTest` branch. On the duration-exceeded path the record is
mutated in memory but the error response is returned before the persistence
write, so `stored` is left untouched there. -/
def handle_stopTest (cfg : Config) (params : Params) (now : Int) (st : State) :
    RpcOutcome × State :=
  if params.device_id ≠ some cfg.deviceId then
    (.error (deviceNotFound params), st)
  else
    match lookupTest st.tests params.test_number with
    | none => (.error (testNotFound params.test_number), st)
    | some (i, t) =>
      if t.test_status_code ≠ "RUN" then
        (.error (errObj (-1) ("Test number " ++ pyIntStr params.test_number ++ " is not running")), st)
      else if now - t.sample_reception_epoch_time ≥ cfg.test_duration_seconds then
        let t' := { t with test_status_code := "END", stop_mode_id := some 2 }
        (.error (errStatusObj (-1) "TEST NOT STOPPABLE"),
          { tests := st.tests.set i t', stored := st.stored })
      else
        let t' := { t with test_status_code := "PAUSE" }
        let tests' := st.tests.set i t'
        (.result (.obj [("status", .str "OK")]), { tests := tests', stored := tests' })

/-- Shallow embedding of the `jsonrpc_handler` dispatcher of `main.py`.

Branches appear in source order; each application method body is split into
its own `handle_*` definition above, mirroring the corresponding `elif`
block line by line. `now` models `int(time.time())` and `peak` models the
single call `random.uniform(50, 100)`. The `try/except` wrapper of the
source can only fire on faults outside the typed model (missing config
keys, type errors on the untyped parameter bag) except for one indexing
detail kept in `handle_cloneAndStartTest`. Every branch that executes
`json.dump(config, f)` sets `stored` to the current test list. -/
def jsonrpc_handler (cfg : Config) (method : String) (params : Params)
    (now : Int) (peak : ℚ) (st : State) : RpcOutcome × State :=
  -- --- Verification methods ---
  if method = "getRevision" then
    (.result (.str "0.3"), st)
  else if method = "sqrt" then
    handle_sqrt params st
  else if params.api_key ≠ some cfg.api_key then
    (.error (errObj (-401) "Invalid API key"), st)
  -- --- Application methods ---
  else if method = "getListOfAllMachines" then
    handle_getListOfAllMachines cfg st
  else if method = "getMachineIdentity" then
    handle_getMachineIdentity cfg params st
  else if method = "getMachineStatus" then
    handle_getMachineStatus cfg params st
  else if method = "getListOfAllTests" then
    handle_getListOfAllTests cfg params st
  else if method = "getListOfAllTestsBySpecimenCode" then
    handle_getListOfAllTestsBySpecimenCode cfg params st
  else if method = "getTestInfoAndStatus" then
    handle_getTestInfoAndStatus cfg params now st
  else if method = "getCustomer" then
    handle_getCustomer st
  else if method = "getListOfAllCustomers" then
    handle_getListOfAllCustomers st
  else if method = "getTestAcquisitionSettings" then
    handle_getTestAcquisitionSettings cfg params st
  else if method = "getTestAcquiredDataAndResults" then
    handle_getTestAcquiredDataAndResults cfg params now st
  else if method = "cloneAndStartTest" then
    handle_cloneAndStartTest cfg params now peak st
  else if method = "continueTest" then
    handle_continueTest cfg params now st
  else if method = "stopTest" then
    handle_stopTest cfg params now st
  -- --- Unknown method ---
  else
    (.error (errObj (-32601) ("Method " ++ method ++ " not implemented")), st)


/-! ### Call sequences -/

/-- One JSON-RPC call: the method name, the parameter bag, the value of
`int(time.time())` during the call, and the `random.uniform(50, 100)` draw
(used only by `cloneAndStartTest`). -/
structure Call where
  method : String
  params : Params
  now : Int
  peak : ℚ

/-- Run a sequence of calls against the shared state, threading the state of
each call into the next (responses are discarded). -/
def runCalls (cfg : Config) : List Call → State → State
  | [], st => st
  | c :: cs, st =>
    runCalls cfg cs ((jsonrpc_handler cfg c.method c.params c.now c.peak st).2)

/-! ### Concrete fixtures (mirroring `tests/Compression_test.py`) -/

/-- The configuration the repository's unit tests run the program with. -/
def cfgW : Config :=
  { api_key := "TESTKEY", deviceId := "DEV-1", deviceName := "SimMachine",
    test_duration_seconds := 60, list_of_license_codes := ["LIC-AAA", "LIC-BBB"] }

/-- A finished test (fixture test number 0). -/
def testEndW : Test :=
  { test_number := 0, status := "OK", test_description := "T0",
    specimen_code := "001", specimen_description := "Spec0",
    sample_reception_epoch_time := 1000000000, customer_id := 1,
    test_status_code := "END", stop_mode_id := some 2,
    list_of_channel_acquired_data := [] }

/-- A paused test (fixture test number 1). -/
def testPauseW : Test :=
  { test_number := 1, status := "OK", test_description := "T1",
    specimen_code := "002", specimen_description := "Spec1",
    sample_reception_epoch_time := 1000000000, customer_id := 1,
    test_status_code := "PAUSE", stop_mode_id := none,
    list_of_channel_acquired_data := [] }

/-- A small channel record used to observe that acquired data passes through
reads unchanged. -/
def chanW : ChannelAcquiredData :=
  { stage_name := "S", sub_stage_index := 1, channel_type := "Analog",
    channel_index := 1, list_of_data_points := [{ delta_t := 0, value := 1 }] }

/-- A running test (fixture test number 1 forced to RUN, as several of the
repository's unit tests do). -/
def testRunW : Test :=
  { testPauseW with
    test_status_code := "RUN",
    sample_reception_epoch_time := 5000000000,
    list_of_channel_acquired_data := [chanW] }

/-- A valid device-scoped parameter bag addressing test `n`. -/
def paramsFor (n : Int) : Params :=
  { api_key := some "TESTKEY", device_id := some "DEV-1", test_number := some n }

/-- The registry state `[END, PAUSE]` the repository's test config starts in,
with memory and store in sync. -/
def stW : State := { tests := [testEndW, testPauseW], stored := [testEndW, testPauseW] }

/-- A registry state `[END, RUN]` (test 1 forced to RUN), in sync. -/
def stRunW : State := { tests := [testEndW, testRunW], stored := [testEndW, testRunW] }

/-! ### Registry lookup lemmas -/

theorem lookupTestAux_getElem? {n : Int} {ts : List Test} {i : Nat} {t : Test}
    (h : lookupTestAux n ts = some (i, t)) : ts[i]? = some t ∧ t.test_number = n := by
  induction ts generalizing i with
  | nil => simp [lookupTestAux] at h
  | cons t0 ts ih =>
    rw [lookupTestAux] at h
    split at h
    · rename_i h0
      simp only [Option.some.injEq, Prod.mk.injEq] at h
      obtain ⟨h1, h2⟩ := h
      subst h1; subst h2
      exact ⟨by simp, h0⟩
    · rcases Option.map_eq_some'.mp h with ⟨⟨i', t'⟩, haux, heq⟩
      cases heq
      simpa using ih haux

theorem lookupTest_getElem? {ts : List Test} {n : Option Int} {i : Nat} {t : Test}
    (h : lookupTest ts n = some (i, t)) : ts[i]? = some t := by
  cases n with
  | none => simp [lookupTest] at h
  | some m => exact (lookupTestAux_getElem? h).1

theorem lookupTest_lt_length {ts : List Test} {n : Option Int} {i : Nat} {t : Test}
    (h : lookupTest ts n = some (i, t)) : i < ts.length :=
  (List.getElem?_eq_some_iff.mp (lookupTest_getElem? h)).1

/-- Overwriting the found entry with a record carrying the same `test_number`
leaves the first-match lookup pointing at the same index. -/
theorem lookupTestAux_set {n : Int} {ts : List Test} {i : Nat} {t u : Test}
    (h : lookupTestAux n ts = some (i, t)) (hu : u.test_number = t.test_number) :
    lookupTestAux n (ts.set i u) = some (i, u) := by
  induction ts generalizing i with
  | nil => simp [lookupTestAux] at h
  | cons t0 ts ih =>
    rw [lookupTestAux] at h
    split at h
    · rename_i h0
      simp only [Option.some.injEq, Prod.mk.injEq] at h
      obtain ⟨h1, h2⟩ := h
      subst h1; subst h2
      simp [List.set, lookupTestAux, hu, h0]
    · rename_i h0
      rcases Option.map_eq_some'.mp h with ⟨⟨i', t'⟩, haux, heq⟩
      cases heq
      simp only [List.set, lookupTestAux, h0, if_neg h0]
      rw [ih haux]
      rfl

theorem lookupTest_set {ts : List Test} {n : Option Int} {i : Nat} {t u : Test}
    (h : lookupTest ts n = some (i, t)) (hu : u.test_number = t.test_number) :
    lookupTest (ts.set i u) n = some (i, u) := by
  cases n with
  | none => simp [lookupTest] at h
  | some m => exact lookupTestAux_set h hu

/-! ### Preservation helpers -/

/-- Setting index `i`, whose current entry is not in status `"END"`, preserves
any `"END"` entry of the list. -/
theorem set_preserves_end {tests : List Test} {i j : Nat} {t u u' : Test}
    (hj : tests[j]? = some t) (hEnd : t.test_status_code = "END")
    (hi : tests[i]? = some u) (hu : u.test_status_code ≠ "END") :
    (tests.set i u')[j]? = some t := by
  rcases eq_or_ne i j with rfl | hne
  · rw [hj] at hi
    cases hi
    exact absurd hEnd hu
  · rw [List.getElem?_set_ne hne]
    exact hj

/-- Setting index `i` back to its current entry preserves every lookup. -/
theorem set_same_getElem? {tests : List Test} {i j : Nat} {t u : Test}
    (hj : tests[j]? = some t) (hi : tests[i]? = some u) :
    (tests.set i u)[j]? = some t := by
  rcases eq_or_ne i j with rfl | hne
  · rw [hi] at hj
    cases hj
    exact List.getElem?_set_self (List.getElem?_eq_some_iff.mp hi).1
  · rw [List.getElem?_set_ne hne]
    exact hj

/-! ### State behaviour of the read-only handlers -/

theorem handle_sqrt_state (params : Params) (st : State) :
    (handle_sqrt params st).2 = st := by
  unfold handle_sqrt
  repeat' split
  all_goals rfl

theorem handle_getMachineIdentity_state (cfg : Config) (params : Params) (st : State) :
    (handle_getMachineIdentity cfg params st).2 = st := by
  unfold handle_getMachineIdentity
  split <;> rfl

theorem handle_getMachineStatus_state (cfg : Config) (params : Params) (st : State) :
    (handle_getMachineStatus cfg params st).2 = st := by
  unfold handle_getMachineStatus
  split <;> rfl

theorem handle_getListOfAllTests_state (cfg : Config) (params : Params) (st : State) :
    (handle_getListOfAllTests cfg params st).2 = st := by
  unfold handle_getListOfAllTests
  split <;> rfl

theorem handle_getListOfAllTestsBySpecimenCode_state (cfg : Config) (params : Params)
    (st : State) : (handle_getListOfAllTestsBySpecimenCode cfg params st).2 = st := by
  unfold handle_getListOfAllTestsBySpecimenCode
  repeat' split
  all_goals rfl

theorem handle_getTestAcquisitionSettings_state (cfg : Config) (params : Params)
    (st : State) : (handle_getTestAcquisitionSettings cfg params st).2 = st := by
  unfold handle_getTestAcquisitionSettings
  repeat' split
  all_goals rfl

/-! ### END-preservation of every handler -/

theorem handle_getTestInfoAndStatus_preserves_end (cfg : Config) (params : Params)
    (now : Int) (st : State) {j : Nat} {t : Test}
    (hj : st.tests[j]? = some t) (hEnd : t.test_status_code = "END") :
    ((handle_getTestInfoAndStatus cfg params now st).2).tests[j]? = some t := by
  unfold handle_getTestInfoAndStatus
  split
  · exact hj
  · split
    · exact hj
    · rename_i i u heq
      dsimp only
      split
      · rename_i hC
        exact set_preserves_end hj hEnd (lookupTest_getElem? heq) (by simp [hC.1])
      · exact set_same_getElem? hj (lookupTest_getElem? heq)

theorem handle_getTestAcquiredDataAndResults_preserves_end (cfg : Config) (params : Params)
    (now : Int) (st : State) {j : Nat} {t : Test}
    (hj : st.tests[j]? = some t) (hEnd : t.test_status_code = "END") :
    ((handle_getTestAcquiredDataAndResults cfg params now st).2).tests[j]? = some t := by
  unfold handle_getTestAcquiredDataAndResults
  split
  · exact hj
  · rename_i i u heq
    dsimp only
    split
    · rename_i hC
      exact set_preserves_end hj hEnd (lookupTest_getElem? heq) (by simp [hC.1])
    · exact set_same_getElem? hj (lookupTest_getElem? heq)

theorem handle_cloneAndStartTest_preserves_end (cfg : Config) (params : Params)
    (now : Int) (peak : ℚ) (st : State) {j : Nat} {t : Test}
    (hj : st.tests[j]? = some t) ( _hEnd : t.test_status_code = "END") :
    ((handle_cloneAndStartTest cfg params now peak st).2).tests[j]? = some t := by
  have hjlt : j < st.tests.length := (List.getElem?_eq_some_iff.mp hj).1
  unfold handle_cloneAndStartTest
  repeat' split
  all_goals try exact hj
  dsimp only
  rw [List.getElem?_append_left hjlt]
  exact hj

theorem handle_continueTest_preserves_end (cfg : Config) (params : Params)
    (now : Int) (st : State) {j : Nat} {t : Test}
    (hj : st.tests[j]? = some t) (hEnd : t.test_status_code = "END") :
    ((handle_continueTest cfg params now st).2).tests[j]? = some t := by
  unfold handle_continueTest
  split
  · exact hj
  · split
    · exact hj
    · rename_i i u heq
      split
      · exact hj
      · rename_i hne
        exact set_preserves_end hj hEnd (lookupTest_getElem? heq)
          (by simp [not_not.mp hne])

theorem handle_stopTest_preserves_end (cfg : Config) (params : Params)
    (now : Int) (st : State) {j : Nat} {t : Test}
    (hj : st.tests[j]? = some t) (hEnd : t.test_status_code = "END") :
    ((handle_stopTest cfg params now st).2).tests[j]? = some t := by
  unfold handle_stopTest
  split
  · exact hj
  · split
    · exact hj
    · rename_i i u heq
      split
      · exact hj
      · rename_i hne
        split
        · exact set_preserves_end hj hEnd (lookupTest_getElem? heq)
            (by simp [not_not.mp hne])
        · exact set_preserves_end hj hEnd (lookupTest_getElem? heq)
            (by simp [not_not.mp hne])

/-- One dispatcher call leaves every `"END"` entry of the registry in place,
whatever the method, parameters, time and random draw. -/
theorem handler_preserves_end_step (cfg : Config) (method : String) (params : Params)
    (now : Int) (peak : ℚ) (st : State) {j : Nat} {t : Test}
    (hj : st.tests[j]? = some t) (hEnd : t.test_status_code = "END") :
    ((jsonrpc_handler cfg method params now peak st).2).tests[j]? = some t := by
  unfold jsonrpc_handler
  by_cases h1 : method = "getRevision"
  · rw [if_pos h1]; exact hj
  rw [if_neg h1]
  by_cases h2 : method = "sqrt"
  · rw [if_pos h2, handle_sqrt_state]; exact hj
  rw [if_neg h2]
  by_cases hk : params.api_key ≠ some cfg.api_key
  · rw [if_pos hk]; exact hj
  rw [if_neg hk]
  by_cases h3 : method = "getListOfAllMachines"
  · rw [if_pos h3]; exact hj
  rw [if_neg h3]
  by_cases h4 : method = "getMachineIdentity"
  · rw [if_pos h4, handle_getMachineIdentity_state]; exact hj
  rw [if_neg h4]
  by_cases h5 : method = "getMachineStatus"
  · rw [if_pos h5, handle_getMachineStatus_state]; exact hj
  rw [if_neg h5]
  by_cases h6 : method = "getListOfAllTests"
  · rw [if_pos h6, handle_getListOfAllTests_state]; exact hj
  rw [if_neg h6]
  by_cases h7 : method = "getListOfAllTestsBySpecimenCode"
  · rw [if_pos h7, handle_getListOfAllTestsBySpecimenCode_state]; exact hj
  rw [if_neg h7]
  by_cases h8 : method = "getTestInfoAndStatus"
  · rw [if_pos h8]
    exact handle_getTestInfoAndStatus_preserves_end cfg params now st hj hEnd
  rw [if_neg h8]
  by_cases h9 : method = "getCustomer"
  · rw [if_pos h9]; exact hj
  rw [if_neg h9]
  by_cases h10 : method = "getListOfAllCustomers"
  · rw [if_pos h10]; exact hj
  rw [if_neg h10]
  by_cases h11 : method = "getTestAcquisitionSettings"
  · rw [if_pos h11, handle_getTestAcquisitionSettings_state]; exact hj
  rw [if_neg h11]
  by_cases h12 : method = "getTestAcquiredDataAndResults"
  · rw [if_pos h12]
    exact handle_getTestAcquiredDataAndResults_preserves_end cfg params now st hj hEnd
  rw [if_neg h12]
  by_cases h13 : method = "cloneAndStartTest"
  · rw [if_pos h13]
    exact handle_cloneAndStartTest_preserves_end cfg params now peak st hj hEnd
  rw [if_neg h13]
  by_cases h14 : method = "continueTest"
  · rw [if_pos h14]
    exact handle_continueTest_preserves_end cfg params now st hj hEnd
  rw [if_neg h14]
  by_cases h15 : method = "stopTest"
  · rw [if_pos h15]
    exact handle_stopTest_preserves_end cfg params now st hj hEnd
  rw [if_neg h15]
  exact hj

/-! ### Dispatch of the literal method names used by the claims -/

theorem dispatch_getTestInfoAndStatus (cfg : Config) (params : Params) (now : Int)
    (peak : ℚ) (st : State) (hkey : params.api_key = some cfg.api_key) :
    jsonrpc_handler cfg "getTestInfoAndStatus" params now peak st =
      handle_getTestInfoAndStatus cfg params now st := by
  unfold jsonrpc_handler
  rw [if_neg (by decide), if_neg (by decide), if_neg (by simp [hkey]),
    if_neg (by decide), if_neg (by decide), if_neg (by decide), if_neg (by decide),
    if_neg (by decide), if_pos rfl]

theorem dispatch_getTestAcquiredDataAndResults (cfg : Config) (params : Params)
    (now : Int) (peak : ℚ) (st : State) (hkey : params.api_key = some cfg.api_key) :
    jsonrpc_handler cfg "getTestAcquiredDataAndResults" params now peak st =
      handle_getTestAcquiredDataAndResults cfg params now st := by
  unfold jsonrpc_handler
  rw [if_neg (by decide), if_neg (by decide), if_neg (by simp [hkey]),
    if_neg (by decide), if_neg (by decide), if_neg (by decide), if_neg (by decide),
    if_neg (by decide), if_neg (by decide), if_neg (by decide), if_neg (by decide),
    if_neg (by decide), if_pos rfl]

theorem dispatch_cloneAndStartTest (cfg : Config) (params : Params) (now : Int)
    (peak : ℚ) (st : State) (hkey : params.api_key = some cfg.api_key) :
    jsonrpc_handler cfg "cloneAndStartTest" params now peak st =
      handle_cloneAndStartTest cfg params now peak st := by
  unfold jsonrpc_handler
  rw [if_neg (by decide), if_neg (by decide), if_neg (by simp [hkey]),
    if_neg (by decide), if_neg (by decide), if_neg (by decide), if_neg (by decide),
    if_neg (by decide), if_neg (by decide), if_neg (by decide), if_neg (by decide),
    if_neg (by decide), if_neg (by decide), if_pos rfl]

theorem dispatch_continueTest (cfg : Config) (params : Params) (now : Int)
    (peak : ℚ) (st : State) (hkey : params.api_key = some cfg.api_key) :
    jsonrpc_handler cfg "continueTest" params now peak st =
      handle_continueTest cfg params now st := by
  unfold jsonrpc_handler
  rw [if_neg (by decide), if_neg (by decide), if_neg (by simp [hkey]),
    if_neg (by decide), if_neg (by decide), if_neg (by decide), if_neg (by decide),
    if_neg (by decide), if_neg (by decide), if_neg (by decide), if_neg (by decide),
    if_neg (by decide), if_neg (by decide), if_neg (by decide), if_pos rfl]

theorem dispatch_stopTest (cfg : Config) (params : Params) (now : Int)
    (peak : ℚ) (st : State) (hkey : params.api_key = some cfg.api_key) :
    jsonrpc_handler cfg "stopTest" params now peak st =
      handle_stopTest cfg params now st := by
  unfold jsonrpc_handler
  rw [if_neg (by decide), if_neg (by decide), if_neg (by simp [hkey]),
    if_neg (by decide), if_neg (by decide), if_neg (by decide), if_neg (by decide),
    if_neg (by decide), if_neg (by decide), if_neg (by decide), if_neg (by decide),
    if_neg (by decide), if_neg (by decide), if_neg (by decide), if_neg (by decide),
    if_pos rfl]

/-! ### Claim theorems -/

/-- C3: for every test in status RUN, `stopTest` returns a success result and
sets the status to PAUSE exactly when `now - sample_reception_epoch_time` is
strictly less than the configured test duration; when the elapsed time is at
or beyond the duration it instead sets the status to END, sets `stop_mode_id`
to the sentinel 2, and returns a failure response. -/
theorem stopTest_run_spec (cfg : Config) (params : Params) (now : Int) (peak : ℚ)
    (st : State) (i : Nat) (t : Test)
    (hkey : params.api_key = some cfg.api_key)
    (hdev : params.device_id = some cfg.deviceId)
    (hlook : lookupTest st.tests params.test_number = some (i, t))
    (hRun : t.test_status_code = "RUN") :
    (now - t.sample_reception_epoch_time < cfg.test_duration_seconds →
      jsonrpc_handler cfg "stopTest" params now peak st =
        (.result (.obj [("status", .str "OK")]),
          { tests := st.tests.set i { t with test_status_code := "PAUSE" },
            stored := st.tests.set i { t with test_status_code := "PAUSE" } })) ∧
    (now - t.sample_reception_epoch_time ≥ cfg.test_duration_seconds →
      jsonrpc_handler cfg "stopTest" params now peak st =
        (.error (errStatusObj (-1) "TEST NOT STOPPABLE"),
          { tests := st.tests.set i
              { t with test_status_code := "END", stop_mode_id := some 2 },
            stored := st.stored })) := by
  rw [dispatch_stopTest cfg params now peak st hkey]
  unfold handle_stopTest
  rw [if_neg (by simp [hdev]), hlook]
  dsimp only
  rw [if_neg (by simp [hRun])]
  constructor
  · intro hlt
    rw [if_neg (by omega)]
  · intro hge
    rw [if_pos hge]

/-- C8: for every existing test, `continueTest` fails with a validation error
(code -1) and leaves the state unchanged when the test's status is not PAUSE;
when the status is PAUSE it succeeds, setting the status to RUN and resetting
`sample_reception_epoch_time` to the current time, and persists. -/
theorem continueTest_spec (cfg : Config) (params : Params) (now : Int) (peak : ℚ)
    (st : State) (i : Nat) (t : Test)
    (hkey : params.api_key = some cfg.api_key)
    (hdev : params.device_id = some cfg.deviceId)
    (hlook : lookupTest st.tests params.test_number = some (i, t)) :
    (t.test_status_code ≠ "PAUSE" →
      jsonrpc_handler cfg "continueTest" params now peak st =
        (.error (errStatusObj (-1) "TEST NOT IN PAUSE"), st)) ∧
    (t.test_status_code = "PAUSE" →
      jsonrpc_handler cfg "continueTest" params now peak st =
        (.result (.obj [("status", .str "OK")]),
          { tests := st.tests.set i
              { t with test_status_code := "RUN", sample_reception_epoch_time := now },
            stored := st.tests.set i
              { t with test_status_code := "RUN", sample_reception_epoch_time := now } })) := by
  rw [dispatch_continueTest cfg params now peak st hkey]
  unfold handle_continueTest
  rw [if_neg (by simp [hdev]), hlook]
  dsimp only
  constructor
  · intro hne
    rw [if_pos hne]
  · intro hp
    rw [if_neg (by simp [hp])]

/-- C1: given a valid device-scoped call whose source test exists, a
`cloneAndStartTest` call fails (error -1, no state change) whenever the most
recently appended test's status is RUN, and succeeds otherwise, appending
exactly one new test whose `test_number` equals the registry size before the
call (previousCount) and equals the value returned as `new_test_number`. -/
theorem cloneAndStartTest_guard_spec (cfg : Config) (params : Params) (now : Int)
    (peak : ℚ) (st : State) (i : Nat) (t0 last : Test)
    (hkey : params.api_key = some cfg.api_key)
    (hdev : params.device_id = some cfg.deviceId)
    (hlook : lookupTest st.tests params.test_number = some (i, t0))
    (hlast : st.tests.getLast? = some last) :
    (last.test_status_code = "RUN" →
      jsonrpc_handler cfg "cloneAndStartTest" params now peak st =
        (.error (errObj (-1) "Cannot clone a running test"), st)) ∧
    (last.test_status_code ≠ "RUN" →
      jsonrpc_handler cfg "cloneAndStartTest" params now peak st =
        (.result (.obj [("status", .str "OK"), ("new_test_number", .int st.tests.length)]),
          { tests := st.tests ++ [mkCloneTest params now peak st.tests.length],
            stored := st.tests ++ [mkCloneTest params now peak st.tests.length] }) ∧
      (mkCloneTest params now peak st.tests.length).test_number = st.tests.length) := by
  rw [dispatch_cloneAndStartTest cfg params now peak st hkey]
  unfold handle_cloneAndStartTest
  rw [if_neg (by simp [hdev]), hlook]
  dsimp only
  rw [hlast]
  dsimp only
  constructor
  · intro hR
    rw [if_pos hR]
  · intro hR
    rw [if_neg hR]
    exact ⟨rfl, rfl⟩

/-- C9 (implicit): a `cloneAndStartTest` call whose `test_number` matches no
stored test returns the not-found error with code -1 and appends no test,
whatever the status of the most recently appended test (in particular even
when it is not RUN, and equally when it is RUN — the source lookup precedes
the last-test-running guard). -/
theorem cloneAndStartTest_notFound (cfg : Config) (params : Params) (now : Int)
    (peak : ℚ) (st : State)
    (hkey : params.api_key = some cfg.api_key)
    (hdev : params.device_id = some cfg.deviceId)
    (hlook : lookupTest st.tests params.test_number = none) :
    jsonrpc_handler cfg "cloneAndStartTest" params now peak st =
      (.error (errObj (-1) ("Test number " ++ pyIntStr params.test_number ++ " not found")), st) := by
  rw [dispatch_cloneAndStartTest cfg params now peak st hkey]
  unfold handle_cloneAndStartTest
  rw [if_neg (by simp [hdev]), hlook]
  rfl

/-- C6: for every method except `getRevision` and `sqrt`, a call whose
`api_key` differs from the configured secret returns the error with code
-401 before dispatching the method, and the registry state (in-memory and
persisted) is unchanged. -/
theorem bad_api_key_rejected (cfg : Config) (method : String) (params : Params)
    (now : Int) (peak : ℚ) (st : State)
    (h1 : method ≠ "getRevision") (h2 : method ≠ "sqrt")
    (hkey : params.api_key ≠ some cfg.api_key) :
    jsonrpc_handler cfg method params now peak st =
      (.error (errObj (-401) "Invalid API key"), st) := by
  unfold jsonrpc_handler
  rw [if_neg h1, if_neg h2, if_pos hkey]

/-- C2: END is terminal — a test whose `test_status_code` is END stays in
place with status END across any sequence of RPC calls, whatever their
methods, parameters, call times and random draws; no operation moves it back
to RUN or PAUSE. -/
theorem end_is_terminal (cfg : Config) (calls : List Call) (st : State) (j : Nat)
    (t : Test) (hj : st.tests[j]? = some t) (hEnd : t.test_status_code = "END") :
    ∃ t', (runCalls cfg calls st).tests[j]? = some t' ∧ t'.test_status_code = "END" := by
  suffices h : ∀ st' : State, st'.tests[j]? = some t →
      (runCalls cfg calls st').tests[j]? = some t by
    exact ⟨t, h st hj, hEnd⟩
  induction calls with
  | nil => intro st' h'; exact h'
  | cons c cs ih =>
    intro st' h'
    rw [runCalls]
    exact ih _ (handler_preserves_end_step cfg c.method c.params c.now c.peak st' h' hEnd)

/-! ### Waveform lemmas -/

theorem results_data_length (p : ℚ) : (results_data p).length = 2000 := by
  simp [results_data]

/-- Sample `k` of the synthetic waveform is `(k·0.05, v)` with `v = delta_t`
below the peak and `v = -delta_t + 2·peak` at or above it. -/
theorem results_data_getElem? (p : ℚ) (k : Nat) (hk : k < 2000) :
    (results_data p)[k]? =
      some { delta_t := (k : ℚ) * 0.05,
             value := if (k : ℚ) * 0.05 < p then (k : ℚ) * 0.05
                      else -((k : ℚ) * 0.05) + 2 * p } := by
  have hx : (5 * (k : ℚ)) / 100 = (k : ℚ) * 0.05 := by
    norm_num
    ring
  unfold results_data
  rw [List.getElem?_map, List.getElem?_range hk]
  dsimp only [Option.map]
  rw [hx, mul_comm p 2]

/-- Every `delta_t` of the synthetic waveform lies in `[0, 100)`. -/
theorem results_data_delta_t_range (p : ℚ) :
    ∀ pt ∈ results_data p, 0 ≤ pt.delta_t ∧ pt.delta_t < 100 := by
  intro pt hpt
  simp only [results_data, List.mem_map, List.mem_range] at hpt
  obtain ⟨k, hk, rfl⟩ := hpt
  constructor
  · positivity
  · rw [div_lt_iff₀ (by norm_num : (0 : ℚ) < 100)]
    have hk' : (k : ℚ) < 2000 := by exact_mod_cast hk
    linarith

set_option maxRecDepth 8000 in
/-- C5: a successful `cloneAndStartTest` with peak `p ∈ [50, 100)` appends a
new test that starts in RUN with `sample_reception_epoch_time = now` and
carries exactly one channel record; its sample sequence has 2000 entries,
entry `k` being `(delta_t, value)` with `delta_t = k·0.05` (so `delta_t`
ranges over `0, 0.05, 0.10, …` strictly below 100) and `value = delta_t`
when `delta_t < p`, `value = -delta_t + 2·p` otherwise. -/
theorem cloneAndStartTest_waveform (cfg : Config) (params : Params) (now : Int)
    (peak : ℚ) (st : State) (i : Nat) (t0 last : Test)
    (hkey : params.api_key = some cfg.api_key)
    (hdev : params.device_id = some cfg.deviceId)
    (hlook : lookupTest st.tests params.test_number = some (i, t0))
    (hlast : st.tests.getLast? = some last)
    (hnotrun : last.test_status_code ≠ "RUN")
    ( _hp1 : 50 ≤ peak) ( _hp2 : peak < 100) :
    ((jsonrpc_handler cfg "cloneAndStartTest" params now peak st).2).tests =
      st.tests ++ [mkCloneTest params now peak st.tests.length] ∧
    (mkCloneTest params now peak st.tests.length).test_status_code = "RUN" ∧
    (mkCloneTest params now peak st.tests.length).sample_reception_epoch_time = now ∧
    ∃ ch : ChannelAcquiredData,
      (mkCloneTest params now peak st.tests.length).list_of_channel_acquired_data = [ch] ∧
      ch.list_of_data_points = results_data peak ∧
      (results_data peak).length = 2000 ∧
      (∀ k : Nat, k < 2000 → (results_data peak)[k]? =
        some { delta_t := (k : ℚ) * 0.05,
               value := if (k : ℚ) * 0.05 < peak then (k : ℚ) * 0.05
                        else -((k : ℚ) * 0.05) + 2 * peak }) ∧
      (∀ pt ∈ results_data peak, 0 ≤ pt.delta_t ∧ pt.delta_t < 100) := by
  have hMain : ((jsonrpc_handler cfg "cloneAndStartTest" params now peak st).2).tests =
      st.tests ++ [mkCloneTest params now peak st.tests.length] := by
    rw [dispatch_cloneAndStartTest cfg params now peak st hkey]
    unfold handle_cloneAndStartTest
    rw [if_neg (by simp [hdev]), hlook]
    dsimp only
    rw [hlast]
    dsimp only
    rw [if_neg hnotrun]
  exact ⟨hMain, rfl, rfl,
    { stage_name := "COMPRESSION_STAGE", sub_stage_index := 1, channel_type := "Analog",
      channel_index := 1, list_of_data_points := results_data peak },
    rfl, rfl, results_data_length peak,
    results_data_getElem? peak, results_data_delta_t_range peak⟩

/-- C4 (amended): for every test whose status is RUN or END, invoking
`getTestInfoAndStatus` twice in succession at any times at or after
`sample_reception_epoch_time` plus the configured duration yields
`test_status_code` END in both responses, the two result payloads being
identical in every field. (For a PAUSE test the claim fails; see the
counterexample.) -/
theorem getTestInfoAndStatus_idempotent (cfg : Config) (params : Params)
    (now1 now2 : Int) (peak1 peak2 : ℚ) (st : State) (i : Nat) (t : Test)
    (hkey : params.api_key = some cfg.api_key)
    (hdev : params.device_id = some cfg.deviceId)
    (hlook : lookupTest st.tests params.test_number = some (i, t))
    (hstatus : t.test_status_code = "RUN" ∨ t.test_status_code = "END")
    (h1 : now1 - t.sample_reception_epoch_time ≥ cfg.test_duration_seconds)
    ( _h2 : now2 - t.sample_reception_epoch_time ≥ cfg.test_duration_seconds) :
    ∃ payload : Json,
      (jsonrpc_handler cfg "getTestInfoAndStatus" params now1 peak1 st).1 =
        .result payload ∧
      (jsonrpc_handler cfg "getTestInfoAndStatus" params now2 peak2
        ((jsonrpc_handler cfg "getTestInfoAndStatus" params now1 peak1 st).2)).1 =
        .result payload ∧
      payload.lookup "test_status_code" = some (.str "END") := by
  rw [dispatch_getTestInfoAndStatus cfg params now1 peak1 st hkey]
  unfold handle_getTestInfoAndStatus
  rw [if_neg (by simp [hdev]), hlook]
  dsimp only
  rcases hstatus with hR | hE
  · rw [if_pos ⟨hR, h1⟩]
    rw [dispatch_getTestInfoAndStatus cfg params now2 peak2 _ hkey]
    unfold handle_getTestInfoAndStatus
    rw [if_neg (by simp [hdev]),
      lookupTest_set hlook
        (rfl : ({ t with test_status_code := "END", stop_mode_id := some 2 } : Test).test_number
          = t.test_number)]
    dsimp only
    rw [if_neg (by rintro ⟨hc, -⟩; exact absurd hc (by decide))]
    exact ⟨testInfoJson { t with test_status_code := "END", stop_mode_id := some 2 },
      rfl, rfl, rfl⟩
  · rw [if_neg (by rintro ⟨hc, -⟩; rw [hE] at hc; exact absurd hc (by decide))]
    rw [dispatch_getTestInfoAndStatus cfg params now2 peak2 _ hkey]
    unfold handle_getTestInfoAndStatus
    rw [if_neg (by simp [hdev]), lookupTest_set hlook (rfl : t.test_number = t.test_number)]
    dsimp only
    rw [if_neg (by rintro ⟨hc, -⟩; rw [hE] at hc; exact absurd hc (by decide))]
    refine ⟨testInfoJson t, rfl, rfl, ?_⟩
    rw [show (testInfoJson t).lookup "test_status_code" =
      some (.str t.test_status_code) from rfl, hE]

/-- C4 counterexample: a single PAUSE test queried long after
`sample_reception_epoch_time + duration` satisfies the claim's applicability
conditions, yet the response reports status PAUSE, not END — auto-completion
fires only on RUN tests, so the claim's "for every test" is too strong. -/
theorem getTestInfoAndStatus_pause_counterexample :
    ((2000000000 : Int) - testPauseW.sample_reception_epoch_time ≥
      cfgW.test_duration_seconds) ∧
    testPauseW.test_status_code = "PAUSE" ∧
    (jsonrpc_handler cfgW "getTestInfoAndStatus" (paramsFor 1) 2000000000 0
        { tests := [testEndW, testPauseW], stored := [testEndW, testPauseW] }).1 =
      .result (testInfoJson testPauseW) ∧
    (testInfoJson testPauseW).lookup "test_status_code" = some (.str "PAUSE") ∧
    some (Json.str "PAUSE") ≠ some (Json.str "END") := by
  refine ⟨by decide, rfl, ?_, rfl, by simp⟩
  rfl

/-- C7 (amended): `getTestAcquiredDataAndResults` never reads `device_id`
(the device-identity guard is absent, so the outcome is invariant under any
supplied `device_id`); for a RUN test with `sample_reception_epoch_time = T`
and configured duration 60, a call at `T + 10000` auto-completes the test
(status END, `stop_mode_id` set to the sentinel 2, both persisted) and its
response carries the test's previously stored channel data unchanged together
with `stop_mode_id` 2 — but the response payload itself has no
`test_status_code` field. -/
theorem getTestAcquiredData_auto_complete (cfg : Config) (params : Params)
    (T : Int) (peak : ℚ) (st : State) (i : Nat) (t : Test)
    (hdur : cfg.test_duration_seconds = 60)
    (hkey : params.api_key = some cfg.api_key)
    (hlook : lookupTest st.tests params.test_number = some (i, t))
    (hRun : t.test_status_code = "RUN")
    (hT : t.sample_reception_epoch_time = T) :
    (∀ d : Option String,
      jsonrpc_handler cfg "getTestAcquiredDataAndResults" { params with device_id := d }
          (T + 10000) peak st =
        jsonrpc_handler cfg "getTestAcquiredDataAndResults" params (T + 10000) peak st) ∧
    jsonrpc_handler cfg "getTestAcquiredDataAndResults" params (T + 10000) peak st =
      (.result (acquiredDataJson { t with test_status_code := "END", stop_mode_id := some 2 }),
        { tests := st.tests.set i { t with test_status_code := "END", stop_mode_id := some 2 },
          stored := st.tests.set i { t with test_status_code := "END", stop_mode_id := some 2 } }) ∧
    (acquiredDataJson { t with test_status_code := "END", stop_mode_id := some 2 }).lookup
        "list_of_channel_acquired_data" =
      some (.arr (t.list_of_channel_acquired_data.map channelJson)) ∧
    (acquiredDataJson { t with test_status_code := "END", stop_mode_id := some 2 }).lookup
        "stop_mode_id" = some (.int 2) ∧
    (acquiredDataJson { t with test_status_code := "END", stop_mode_id := some 2 }).lookup
        "test_status_code" = none := by
  refine ⟨fun d => rfl, ?_, rfl, rfl, rfl⟩
  rw [dispatch_getTestAcquiredDataAndResults cfg params (T + 10000) peak st hkey]
  unfold handle_getTestAcquiredDataAndResults
  rw [hlook]
  dsimp only
  rw [if_pos ⟨hRun, by rw [hT, hdur]; omega⟩]

/-- C7 counterexample: at the claim's own scenario (RUN test, duration 60,
queried 10000 seconds after reception, no `device_id` supplied at all) the
call succeeds and auto-completes, but the response payload contains no
`test_status_code` key, so it does not "report statusCode END": only
`stop_mode_id` and the unchanged channel data are returned. -/
theorem getTestAcquiredData_no_statusCode_counterexample :
    (jsonrpc_handler cfgW "getTestAcquiredDataAndResults"
        { api_key := some "TESTKEY", test_number := some 1 } (5000000000 + 10000) 0
        { tests := [testEndW, testRunW], stored := [testEndW, testRunW] }).1 =
      .result (acquiredDataJson
        { testRunW with test_status_code := "END", stop_mode_id := some 2 }) ∧
    (acquiredDataJson { testRunW with test_status_code := "END", stop_mode_id := some 2 }).lookup
        "test_status_code" = none ∧
    (acquiredDataJson { testRunW with test_status_code := "END", stop_mode_id := some 2 }).lookup
        "test_status_code" ≠ some (.str "END") := by
  refine ⟨rfl, rfl, ?_⟩
  rw [show (acquiredDataJson
    { testRunW with test_status_code := "END", stop_mode_id := some 2 }).lookup
      "test_status_code" = none from rfl]
  simp

/-! ### Persistence synchronisation lemmas -/

theorem handle_getTestInfoAndStatus_sync (cfg : Config) (params : Params) (now : Int)
    (st : State) (h : st.stored = st.tests) :
    ((handle_getTestInfoAndStatus cfg params now st).2).stored =
      ((handle_getTestInfoAndStatus cfg params now st).2).tests := by
  unfold handle_getTestInfoAndStatus
  repeat' split
  all_goals first | exact h | rfl

theorem handle_getTestAcquiredDataAndResults_sync (cfg : Config) (params : Params)
    (now : Int) (st : State) (h : st.stored = st.tests) :
    ((handle_getTestAcquiredDataAndResults cfg params now st).2).stored =
      ((handle_getTestAcquiredDataAndResults cfg params now st).2).tests := by
  unfold handle_getTestAcquiredDataAndResults
  repeat' split
  all_goals first | exact h | rfl

theorem handle_cloneAndStartTest_sync (cfg : Config) (params : Params) (now : Int)
    (peak : ℚ) (st : State) (h : st.stored = st.tests) :
    ((handle_cloneAndStartTest cfg params now peak st).2).stored =
      ((handle_cloneAndStartTest cfg params now peak st).2).tests := by
  unfold handle_cloneAndStartTest
  repeat' split
  all_goals first | exact h | rfl

theorem handle_continueTest_sync (cfg : Config) (params : Params) (now : Int)
    (st : State) (h : st.stored = st.tests) :
    ((handle_continueTest cfg params now st).2).stored =
      ((handle_continueTest cfg params now st).2).tests := by
  unfold handle_continueTest
  repeat' split
  all_goals first | exact h | rfl

/-- `stopTest` either keeps memory and store synchronised or returns the
`TEST NOT STOPPABLE` failure (the duration-exceeded branch, which mutates
without writing the store). -/
theorem handle_stopTest_sync (cfg : Config) (params : Params) (now : Int)
    (st : State) (h : st.stored = st.tests) :
    ((handle_stopTest cfg params now st).2).stored =
      ((handle_stopTest cfg params now st).2).tests ∨
    (handle_stopTest cfg params now st).1 =
      .error (errStatusObj (-1) "TEST NOT STOPPABLE") := by
  unfold handle_stopTest
  repeat' split
  all_goals first | exact Or.inl h | exact Or.inl rfl | exact Or.inr rfl

/-- One dispatcher call from a synchronised state either ends synchronised or
is exactly the `stopTest` duration-exceeded failure. -/
theorem handler_sync_step (cfg : Config) (method : String) (params : Params)
    (now : Int) (peak : ℚ) (st : State) (h : st.stored = st.tests) :
    ((jsonrpc_handler cfg method params now peak st).2).stored =
      ((jsonrpc_handler cfg method params now peak st).2).tests ∨
    (method = "stopTest" ∧
      (jsonrpc_handler cfg method params now peak st).1 =
        .error (errStatusObj (-1) "TEST NOT STOPPABLE")) := by
  unfold jsonrpc_handler
  by_cases h1 : method = "getRevision"
  · rw [if_pos h1]; exact Or.inl h
  rw [if_neg h1]
  by_cases h2 : method = "sqrt"
  · rw [if_pos h2, handle_sqrt_state]; exact Or.inl h
  rw [if_neg h2]
  by_cases hk : params.api_key ≠ some cfg.api_key
  · rw [if_pos hk]; exact Or.inl h
  rw [if_neg hk]
  by_cases h3 : method = "getListOfAllMachines"
  · rw [if_pos h3]; exact Or.inl h
  rw [if_neg h3]
  by_cases h4 : method = "getMachineIdentity"
  · rw [if_pos h4, handle_getMachineIdentity_state]; exact Or.inl h
  rw [if_neg h4]
  by_cases h5 : method = "getMachineStatus"
  · rw [if_pos h5, handle_getMachineStatus_state]; exact Or.inl h
  rw [if_neg h5]
  by_cases h6 : method = "getListOfAllTests"
  · rw [if_pos h6, handle_getListOfAllTests_state]; exact Or.inl h
  rw [if_neg h6]
  by_cases h7 : method = "getListOfAllTestsBySpecimenCode"
  · rw [if_pos h7, handle_getListOfAllTestsBySpecimenCode_state]; exact Or.inl h
  rw [if_neg h7]
  by_cases h8 : method = "getTestInfoAndStatus"
  · rw [if_pos h8]
    exact Or.inl (handle_getTestInfoAndStatus_sync cfg params now st h)
  rw [if_neg h8]
  by_cases h9 : method = "getCustomer"
  · rw [if_pos h9]; exact Or.inl h
  rw [if_neg h9]
  by_cases h10 : method = "getListOfAllCustomers"
  · rw [if_pos h10]; exact Or.inl h
  rw [if_neg h10]
  by_cases h11 : method = "getTestAcquisitionSettings"
  · rw [if_pos h11, handle_getTestAcquisitionSettings_state]; exact Or.inl h
  rw [if_neg h11]
  by_cases h12 : method = "getTestAcquiredDataAndResults"
  · rw [if_pos h12]
    exact Or.inl (handle_getTestAcquiredDataAndResults_sync cfg params now st h)
  rw [if_neg h12]
  by_cases h13 : method = "cloneAndStartTest"
  · rw [if_pos h13]
    exact Or.inl (handle_cloneAndStartTest_sync cfg params now peak st h)
  rw [if_neg h13]
  by_cases h14 : method = "continueTest"
  · rw [if_pos h14]
    exact Or.inl (handle_continueTest_sync cfg params now st h)
  rw [if_neg h14]
  by_cases h15 : method = "stopTest"
  · rw [if_pos h15]
    rcases handle_stopTest_sync cfg params now st h with hs | hs
    · exact Or.inl hs
    · exact Or.inr ⟨h15, hs⟩
  rw [if_neg h15]
  exact Or.inl h

/-- C10 (implicit): on `stopTest`'s duration-exceeded branch the in-memory
registry receives the END/stop-mode mutation but the configuration store is
not written before the failure response, so in-memory and persisted state
diverge after the call; and this is the only mutating path that does not
persist — any call from a synchronised state either ends synchronised or is
exactly this `stopTest` failure. -/
theorem stopTest_exceeded_no_persist (cfg : Config) (params : Params) (now : Int)
    (peak : ℚ) (st : State) (i : Nat) (t : Test)
    (hkey : params.api_key = some cfg.api_key)
    (hdev : params.device_id = some cfg.deviceId)
    (hlook : lookupTest st.tests params.test_number = some (i, t))
    (hRun : t.test_status_code = "RUN")
    (hge : now - t.sample_reception_epoch_time ≥ cfg.test_duration_seconds)
    (hsync : st.stored = st.tests) :
    jsonrpc_handler cfg "stopTest" params now peak st =
      (.error (errStatusObj (-1) "TEST NOT STOPPABLE"),
        { tests := st.tests.set i { t with test_status_code := "END", stop_mode_id := some 2 },
          stored := st.stored }) ∧
    ((jsonrpc_handler cfg "stopTest" params now peak st).2).stored ≠
      ((jsonrpc_handler cfg "stopTest" params now peak st).2).tests ∧
    (∀ (method' : String) (params' : Params) (now' : Int) (peak' : ℚ) (st' : State),
      st'.stored = st'.tests →
      ((jsonrpc_handler cfg method' params' now' peak' st').2).stored =
        ((jsonrpc_handler cfg method' params' now' peak' st').2).tests ∨
      (method' = "stopTest" ∧
        (jsonrpc_handler cfg method' params' now' peak' st').1 =
          .error (errStatusObj (-1) "TEST NOT STOPPABLE"))) := by
  have hmain : jsonrpc_handler cfg "stopTest" params now peak st =
      (.error (errStatusObj (-1) "TEST NOT STOPPABLE"),
        { tests := st.tests.set i { t with test_status_code := "END", stop_mode_id := some 2 },
          stored := st.stored }) := by
    rw [dispatch_stopTest cfg params now peak st hkey]
    unfold handle_stopTest
    rw [if_neg (by simp [hdev]), hlook]
    dsimp only
    rw [if_neg (by simp [hRun]), if_pos hge]
  refine ⟨hmain, ?_,
    fun method' params' now' peak' st' h' =>
      handler_sync_step cfg method' params' now' peak' st' h'⟩
  rw [hmain]
  dsimp only
  rw [hsync]
  intro hEq
  have hi : st.tests[i]? = some t := lookupTest_getElem? hlook
  have hlen : i < st.tests.length := (List.getElem?_eq_some_iff.mp hi).1
  have h2 : (st.tests.set i
      { t with test_status_code := "END", stop_mode_id := some 2 })[i]? =
      some { t with test_status_code := "END", stop_mode_id := some 2 } :=
    List.getElem?_set_self hlen
  rw [← hEq, hi] at h2
  have hts := congrArg Test.test_status_code (Option.some.inj h2)
  rw [hRun] at hts
  simp at hts

/-! ### Concrete witnesses -/

/-- C1 witness: cloning test 0 of the `[END, PAUSE]` registry succeeds and
assigns test number 2 = previousCount. -/
theorem cloneAndStartTest_guard_spec_witness :
    jsonrpc_handler cfgW "cloneAndStartTest" (paramsFor 0) 2000000000 75 stW =
      (.result (.obj [("status", .str "OK"), ("new_test_number", .int 2)]),
        { tests := [testEndW, testPauseW] ++ [mkCloneTest (paramsFor 0) 2000000000 75 2],
          stored := [testEndW, testPauseW] ++ [mkCloneTest (paramsFor 0) 2000000000 75 2] }) ∧
    (mkCloneTest (paramsFor 0) 2000000000 75 2).test_number = 2 :=
  (cloneAndStartTest_guard_spec cfgW (paramsFor 0) 2000000000 75 stW 0 testEndW testPauseW
    rfl rfl rfl rfl).2 (by decide)

/-- C2 witness: the END test at index 0 survives a continue/stop/status-query
sequence unchanged. -/
theorem end_is_terminal_witness :
    ∃ t', (runCalls cfgW
        [{ method := "continueTest", params := paramsFor 0, now := 2000000000, peak := 60 },
         { method := "stopTest", params := paramsFor 0, now := 2000000001, peak := 60 },
         { method := "getTestInfoAndStatus", params := paramsFor 0, now := 2000000002, peak := 60 }]
        stW).tests[0]? = some t' ∧ t'.test_status_code = "END" :=
  end_is_terminal cfgW
    [{ method := "continueTest", params := paramsFor 0, now := 2000000000, peak := 60 },
     { method := "stopTest", params := paramsFor 0, now := 2000000001, peak := 60 },
     { method := "getTestInfoAndStatus", params := paramsFor 0, now := 2000000002, peak := 60 }]
    stW 0 testEndW rfl rfl

/-- C3 witness: stopping the RUN test 10 seconds into a 60-second duration
succeeds and parks it in PAUSE. -/
theorem stopTest_run_spec_witness :
    jsonrpc_handler cfgW "stopTest" (paramsFor 1) 5000000010 0 stRunW =
      (.result (.obj [("status", .str "OK")]),
        { tests := stRunW.tests.set 1 { testRunW with test_status_code := "PAUSE" },
          stored := stRunW.tests.set 1 { testRunW with test_status_code := "PAUSE" } }) :=
  (stopTest_run_spec cfgW (paramsFor 1) 5000000010 0 stRunW 1 testRunW
    rfl rfl rfl rfl).1 (by decide)

/-- C4 witness: two late queries of the RUN test both report END with the
same payload. -/
theorem getTestInfoAndStatus_idempotent_witness :
    ∃ payload : Json,
      (jsonrpc_handler cfgW "getTestInfoAndStatus" (paramsFor 1) 5000010000 0 stRunW).1 =
        .result payload ∧
      (jsonrpc_handler cfgW "getTestInfoAndStatus" (paramsFor 1) 5000020000 0
        ((jsonrpc_handler cfgW "getTestInfoAndStatus" (paramsFor 1) 5000010000 0 stRunW).2)).1 =
        .result payload ∧
      payload.lookup "test_status_code" = some (.str "END") :=
  getTestInfoAndStatus_idempotent cfgW (paramsFor 1) 5000010000 5000020000 0 0 stRunW 1
    testRunW rfl rfl rfl (Or.inl rfl) (by decide) (by decide)

/-- C5 witness: cloning with peak 75 appends the synthetic test; its waveform
ramps up to the peak (sample 1500 is `(75, 75)`) and back down (sample 1600
is `(80, 70)`). -/
theorem cloneAndStartTest_waveform_witness :
    ((jsonrpc_handler cfgW "cloneAndStartTest" (paramsFor 0) 2000000000 75 stW).2).tests =
      [testEndW, testPauseW] ++ [mkCloneTest (paramsFor 0) 2000000000 75 2] ∧
    (results_data 75)[1500]? = some { delta_t := 75, value := 75 } ∧
    (results_data 75)[1600]? = some { delta_t := 80, value := 70 } := by
  have h := cloneAndStartTest_waveform cfgW (paramsFor 0) 2000000000 75 stW 0
    testEndW testPauseW rfl rfl rfl rfl (by decide) (by norm_num) (by norm_num)
  obtain ⟨h1, -, -, ch, -, -, -, hpts, -⟩ := h
  refine ⟨h1, ?_, ?_⟩
  · rw [hpts 1500 (by norm_num)]
    norm_num
  · rw [hpts 1600 (by norm_num)]
    norm_num

/-- C6 witness: a device-scoped call with the wrong shared secret is rejected
with -401 and leaves the registry untouched. -/
theorem bad_api_key_rejected_witness :
    jsonrpc_handler cfgW "stopTest" { api_key := some "WRONG" } 0 0 stW =
      (.error (errObj (-401) "Invalid API key"), stW) :=
  bad_api_key_rejected cfgW "stopTest" { api_key := some "WRONG" } 0 0 stW
    (by decide) (by decide) (by decide)

/-- C7 witness: the claim's scenario, with a bogus `device_id` having no
effect on the outcome. -/
theorem getTestAcquiredData_auto_complete_witness :
    jsonrpc_handler cfgW "getTestAcquiredDataAndResults"
        { api_key := some "TESTKEY", device_id := some "NOPE", test_number := some 1 }
        (5000000000 + 10000) 0 stRunW =
      jsonrpc_handler cfgW "getTestAcquiredDataAndResults"
        { api_key := some "TESTKEY", test_number := some 1 } (5000000000 + 10000) 0 stRunW ∧
    jsonrpc_handler cfgW "getTestAcquiredDataAndResults"
        { api_key := some "TESTKEY", test_number := some 1 } (5000000000 + 10000) 0 stRunW =
      (.result (acquiredDataJson
          { testRunW with test_status_code := "END", stop_mode_id := some 2 }),
        { tests := stRunW.tests.set 1
            { testRunW with test_status_code := "END", stop_mode_id := some 2 },
          stored := stRunW.tests.set 1
            { testRunW with test_status_code := "END", stop_mode_id := some 2 } }) ∧
    (acquiredDataJson { testRunW with test_status_code := "END", stop_mode_id := some 2 }).lookup
      "stop_mode_id" = some (.int 2) := by
  have h := getTestAcquiredData_auto_complete cfgW
    { api_key := some "TESTKEY", test_number := some 1 } 5000000000 0 stRunW 1 testRunW
    rfl rfl rfl rfl rfl
  exact ⟨h.1 (some "NOPE"), h.2.1, h.2.2.2.1⟩

/-- C8 witness: continuing the PAUSE test succeeds, setting RUN and resetting
the reception time to now. -/
theorem continueTest_spec_witness :
    jsonrpc_handler cfgW "continueTest" (paramsFor 1) 3000000000 0 stW =
      (.result (.obj [("status", .str "OK")]),
        { tests := stW.tests.set 1
            { testPauseW with test_status_code := "RUN", sample_reception_epoch_time := 3000000000 },
          stored := stW.tests.set 1
            { testPauseW with test_status_code := "RUN", sample_reception_epoch_time := 3000000000 } }) :=
  (continueTest_spec cfgW (paramsFor 1) 3000000000 0 stW 1 testPauseW rfl rfl rfl).2 rfl

/-- C9 witness: cloning from the missing test number 5 fails with the
not-found error and appends nothing, even though the last test is RUN. -/
theorem cloneAndStartTest_notFound_witness :
    jsonrpc_handler cfgW "cloneAndStartTest"
        { api_key := some "TESTKEY", device_id := some "DEV-1", test_number := some 5 }
        0 75 stRunW =
      (.error (errObj (-1) "Test number 5 not found"), stRunW) :=
  cloneAndStartTest_notFound cfgW
    { api_key := some "TESTKEY", device_id := some "DEV-1", test_number := some 5 }
    0 75 stRunW rfl rfl rfl

/-- C10 witness: stopping the RUN test long after its duration mutates it to
END in memory, skips the store write, and leaves memory and store diverged. -/
theorem stopTest_exceeded_no_persist_witness :
    jsonrpc_handler cfgW "stopTest" (paramsFor 1) 5000010000 0 stRunW =
      (.error (errStatusObj (-1) "TEST NOT STOPPABLE"),
        { tests := stRunW.tests.set 1
            { testRunW with test_status_code := "END", stop_mode_id := some 2 },
          stored := stRunW.stored }) ∧
    ((jsonrpc_handler cfgW "stopTest" (paramsFor 1) 5000010000 0 stRunW).2).stored ≠
      ((jsonrpc_handler cfgW "stopTest" (paramsFor 1) 5000010000 0 stRunW).2).tests := by
  have h := stopTest_exceeded_no_persist cfgW (paramsFor 1) 5000010000 0 stRunW 1 testRunW
    rfl rfl rfl rfl (by decide) rfl
  exact ⟨h.1, h.2.1⟩

end Compression
